import Mathlib

/-!
Verification development for the TiMian_Bot IP/CIDR manager (src/index.js).

The bot keeps one SQLite table
  ip_addresses(id PK autoincrement, user_id TEXT, ip_address TEXT, cidr TEXT)
and handles the commands /add, /delete, /list, /check, /batchadd plus the
callback buttons prev_page_N / next_page_N / confirm_batch_add /
cancel_batch_add.  The definitions below embed that program shallowly:

* the table is a list of rows in insertion order (SQLite scans this simple
  table in rowid order, which is insertion order) plus the autoincrement
  counter;
* `SELECT`/`DELETE` with `col = ?` on a nullable column is `sqlEq`
  (NULL compares equal to nothing);
* the ip-cidr library (an external npm dependency, not part of this
  repository) is abstracted by two function parameters: `cls` for
  `CIDR.isValidCIDR` and `ctns` for `new CIDR(c).contains(a)`;
* a sqlite I/O failure of one `INSERT` during a batch is abstracted by an
  outcome oracle `outcome : Nat → Bool` giving each insert's fate;
* JavaScript string primitives (`trim`, `split`, `startsWith`, `parseInt`)
  are modelled by structurally recursive functions on the character list so
  that all definitions evaluate inside the kernel.
-/

namespace TiMian

/-- Model of the JavaScript string trim used throughout src/index.js:
drop whitespace from both ends of the string. -/
def jsTrim (s : String) : String :=
  String.mk (((s.data.dropWhile Char.isWhitespace).reverse.dropWhile Char.isWhitespace).reverse)

/-- Helper for `jsSplitOnChar`: walk the characters, cutting at the
separator. -/
def splitOnCharAux (c : Char) : List Char → List Char → List String
  | [], acc => [String.mk acc.reverse]
  | x :: rest, acc =>
      if x == c then String.mk acc.reverse :: splitOnCharAux c rest []
      else splitOnCharAux c rest (x :: acc)

/-- Model of JavaScript `s.split(c)` for a single-character separator
(the source splits on a newline and on an underscore). -/
def jsSplitOnChar (c : Char) (s : String) : List String :=
  splitOnCharAux c s.data []

/-- Model of JavaScript `s.startsWith(p)`. -/
def jsStartsWith (s p : String) : Bool :=
  p.data.isPrefixOf s.data

/-- Numeric value of a list of decimal digit characters. -/
def digitsVal (l : List Char) : Nat :=
  l.foldl (fun a c => a * 10 + (c.toNat - 48)) 0

/-- Model of JavaScript `parseInt` on the page tokens the program itself
generates (`prev_page_N` / `next_page_N` with a decimal, possibly negative,
page number): parse an optional minus sign and the maximal run of leading
digits, `none` for NaN. -/
def jsParseInt (s : String) : Option Int :=
  match s.data with
  | '-' :: rest =>
      let d := rest.takeWhile Char.isDigit
      if d = [] then none else some (-(digitsVal d : Int))
  | l =>
      let d := l.takeWhile Char.isDigit
      if d = [] then none else some ((digitsVal d : Int))

/-- One row of the `ip_addresses` table.  `user_id` is the numeric Telegram
user id (stored as text by SQLite; equality on it behaves as numeric
equality, so it is modelled as `Nat`).  Exactly the rows produced by
`addEntry` populate one of `ip_address` / `cidr` and leave the other NULL. -/
structure Row where
  id : Nat
  user_id : Nat
  ip_address : Option String
  cidr : Option String

deriving instance DecidableEq for Row
deriving instance Repr for Row

/-- The database: rows in insertion (rowid) order plus the autoincrement
counter for the next `id`. -/
structure DB where
  rows : List Row
  nextId : Nat

deriving instance DecidableEq for DB
deriving instance Repr for DB

/-- The freshly created (empty) database; SQLite autoincrement starts at 1. -/
def DB.empty : DB := { rows := [], nextId := 1 }

/-- SQL `col = ?` on a nullable text column: NULL compares equal to
nothing (also matches JavaScript strict equality `row.field === input`
when the field is null). -/
def sqlEq (col : Option String) (v : String) : Bool :=
  match col with
  | some s => s == v
  | none => false

/-- `addEntry(userId, input, isCidr, cb)` (src/index.js lines 251-255):
INSERT INTO ip_addresses (user_id, cidr) or (user_id, ip_address). -/
def addEntry (uid : Nat) (input : String) (isCidr : Bool) (db : DB) : DB :=
  { rows := db.rows ++
      [{ id := db.nextId, user_id := uid,
         ip_address := if isCidr then none else some input,
         cidr := if isCidr then some input else none }],
    nextId := db.nextId + 1 }

/-- The literal textual value a row stores (whichever of the two columns is
populated). -/
def storedValue (r : Row) : String :=
  match r.ip_address with
  | some s => s
  | none =>
      match r.cidr with
      | some c => c
      | none => ""

/-- The duplicate pre-check of the /add handler (src/index.js lines 55-57):
`SELECT * FROM ip_addresses WHERE user_id = ? AND (ip_address = ? OR cidr = ?)`
with bind parameters `[userId, input, isCidr ? "" : input]` — note the third
parameter: when the input classifies as a CIDR the `cidr` column is compared
against the empty string, not against the input. -/
def existsQuery (db : DB) (uid : Nat) (input : String) (isCidr : Bool) : Bool :=
  db.rows.any fun r =>
    r.user_id == uid &&
      (sqlEq r.ip_address input || sqlEq r.cidr (if isCidr then "" else input))

/-- The /add handler (src/index.js lines 49-77).  `cls` abstracts
`CIDR.isValidCIDR`.  Returns the database after the command and the message
sent to the chat. -/
def addHandler (cls : String → Bool) (db : DB) (uid : Nat) (raw : String) :
    DB × String :=
  let input := jsTrim raw
  let isCidr := cls input
  if existsQuery db uid input isCidr then
    (db, "Address " ++ input ++ " has already been added.")
  else
    (addEntry uid input isCidr db,
     (if isCidr then "CIDR " else "IP address ") ++ input ++ " added successfully.")

/-- The WHERE clause of the /delete handler (src/index.js line 83):
`user_id = ? AND (ip_address = ? OR cidr = ?)` with both value parameters
bound to the trimmed input. -/
def deleteMatch (uid : Nat) (input : String) (r : Row) : Bool :=
  r.user_id == uid && (sqlEq r.ip_address input || sqlEq r.cidr input)

/-- The /delete handler (src/index.js lines 79-93): run the DELETE, then
report by `this.changes` (number of rows removed). -/
def deleteHandler (db : DB) (uid : Nat) (raw : String) : DB × String :=
  let input := jsTrim raw
  let changes := db.rows.countP (deleteMatch uid input)
  ({ db with rows := db.rows.filter fun r => !(deleteMatch uid input r) },
   if changes > 0 then "Entry " ++ input ++ " deleted successfully."
   else "No entry found for " ++ input ++ ".")

/-- Number of records of owner `uid` whose stored literal value (in either
column) is `v`. -/
def countOwnerValue (db : DB) (uid : Nat) (v : String) : Nat :=
  db.rows.countP fun r =>
    r.user_id == uid && (r.ip_address == some v || r.cidr == some v)

/-- How a nullable column renders inside a JavaScript template string:
a null field prints as the word `null`. -/
def showNullable (o : Option String) : String :=
  match o with
  | some s => s
  | none => "null"

/-- One line of the /list output (src/index.js line 114). -/
def rowLine (r : Row) : String :=
  "ID: " ++ toString r.id ++ ", User: " ++ toString r.user_id ++
    ", IP: " ++ showNullable r.ip_address ++ ", CIDR: " ++ showNullable r.cidr

/-- Model of `Array.prototype.join` with a newline separator. -/
def joinLines : List String → String
  | [] => ""
  | [x] => x
  | x :: rest => x ++ "\n" ++ joinLines rest

/-- What `listIpAddresses` produces: the fetched page of rows, the message
text, and the inline keyboard row as (label, callback token) pairs. -/
structure PageRender where
  rows : List Row
  text : String
  keyboard : List (String × String)

deriving instance DecidableEq for PageRender
deriving instance Repr for PageRender

/-- `listIpAddresses(chatId, page)` (src/index.js lines 103-130):
`SELECT * FROM ip_addresses LIMIT 10 OFFSET page*10` (SQLite treats a
negative OFFSET as zero, hence `Int.toNat`), one formatted line per row,
a Previous button iff `page > 0`, a Next button iff exactly 10 rows came
back, and the text `No entries found.` when the joined response is the
empty string. -/
def listIpAddresses (db : DB) (page : Int) : PageRender :=
  let lim : Nat := 10
  let offset : Int := page * (lim : Int)
  let rows := (db.rows.drop offset.toNat).take lim
  let response := joinLines (rows.map rowLine)
  let keyboard :=
    (if page > 0 then [("Previous", "prev_page_" ++ toString page)] else []) ++
    (if rows.length == lim then [("Next", "next_page_" ++ toString page)] else [])
  { rows := rows,
    text := if response == "" then "No entries found." else response,
    keyboard := keyboard }

/-- The row predicate of the bare-address branch of /check (src/index.js
line 203): `row.ip_address === input || (CIDR.isValidCIDR(row.cidr) &&
new CIDR(row.cidr).contains(input))`.  `cls` abstracts `CIDR.isValidCIDR`
(false on a null field) and `ctns` abstracts CIDR containment. -/
def bareMatch (cls : String → Bool) (ctns : String → String → Bool)
    (input : String) (r : Row) : Bool :=
  sqlEq r.ip_address input ||
    (match r.cidr with
     | some c => cls c && ctns c input
     | none => false)

/-- The /check handler (src/index.js lines 179-214): full scan of the table;
for a CIDR-classified input report whether some row stores exactly that CIDR
string; otherwise report the FIRST row in scan order matching `bareMatch`,
naming that row's cidr field and owner. -/
def checkHandler (cls : String → Bool) (ctns : String → String → Bool)
    (db : DB) (raw : String) : String :=
  let input := jsTrim raw
  if cls input then
    match db.rows.find? (fun r => r.cidr == some input) with
    | some _ => "CIDR " ++ input ++ " exists in your records."
    | none => "CIDR " ++ input ++ " does not exist in your records."
  else
    match db.rows.find? (bareMatch cls ctns input) with
    | some r =>
        input ++ " is within CIDR " ++ showNullable r.cidr ++
          " from user " ++ toString r.user_id
    | none => input ++ " is not within any stored CIDR."

/-- The transient per-conversation batch state `batchAddData[chatId]`
(src/index.js line 216): the initiating user, the collected candidate
values, and the confirmation prompt's message id once known. -/
structure PendingBatch where
  userId : Nat
  addresses : List String
  messageId : Option Nat

deriving instance DecidableEq for PendingBatch
deriving instance Repr for PendingBatch

/-- The per-conversation state the callback handler touches: the (global)
database, the pending batch if any, and the stored /list page cursor. -/
structure CbState where
  db : DB
  pending : Option PendingBatch
  listPage : Option Int

deriving instance DecidableEq for CbState
deriving instance Repr for CbState

/-- The /batchadd command (src/index.js lines 218-222): install a fresh
pending batch for the conversation (overwriting any prior one) and prompt
for input. -/
def batchAddCommand (st : CbState) (uid : Nat) : CbState × String :=
  ({ st with pending := some { userId := uid, addresses := [], messageId := none } },
   "Please send the IP addresses or CIDRs, one per line.")

/-- The candidate-collection step of the plain-message handler
(src/index.js lines 227-229): trim the whole message, split it on newlines,
trim each line and drop the empty ones. -/
def collectAddresses (text : String) : List String :=
  ((jsSplitOnChar (Char.ofNat 10) (jsTrim text)).map jsTrim).filter fun l => l != ""

/-- The plain-message handler (src/index.js lines 224-249): only acts while
a batch is pending; a message that trims to the empty string abandons the
batch, otherwise the collected candidates replace the pending list and a
confirmation prompt is sent. -/
def handleMessage (st : CbState) (text : String) : CbState × List String :=
  match st.pending with
  | some p =>
      let t := jsTrim text
      if t != "" then
        let addresses := collectAddresses text
        ({ st with pending := some { p with addresses := addresses } },
         ["Are you sure you want to add the following addresses?\n\n" ++
            joinLines addresses])
      else
        ({ st with pending := none },
         ["No valid addresses found. Please try again."])
  | none => (st, [])

/-- The insert loop of the confirm_batch_add branch (src/index.js lines
147-163): for the i-th candidate, classify it and attempt `addEntry`;
`outcome i` tells whether that insert succeeds or fails with a storage
error (the error is counted, and the loop goes on).  All attempts settle
before the caller builds the summary; sqlite serialises the concurrent
inserts, modelled here in list order.  Returns the final database, the
success count and the error count. -/
def runBatch (cls : String → Bool) (outcome : Nat → Bool) (uid : Nat) :
    List String → DB → Nat → DB × Nat × Nat
  | [], db, _ => (db, 0, 0)
  | a :: rest, db, i =>
      let isCidr := cls a
      if outcome i then
        let out := runBatch cls outcome uid rest (addEntry uid a isCidr db) (i + 1)
        (out.1, out.2.1 + 1, out.2.2)
      else
        let out := runBatch cls outcome uid rest db (i + 1)
        (out.1, out.2.1, out.2.2 + 1)

/-- The batch summary message (src/index.js line 164). -/
def batchSummary (s e : Nat) : String :=
  "Batch add completed. " ++ toString s ++ " addresses added successfully, " ++
    toString e ++ " errors."

/-- The owner guard of the confirm branch (src/index.js line 142):
`batchAddData[chatId] && batchAddData[chatId].userId === callbackQuery.from.id`. -/
def pendingOwnerIs (pending : Option PendingBatch) (uid : Nat) : Bool :=
  match pending with
  | some p => p.userId == uid
  | none => false

/-- The JavaScript error raised when cancel_batch_add fires with no pending
batch: line 172 reads `batchAddData[chatId].messageId` of `undefined`. -/
def cancelCrashMessage : String :=
  "TypeError: Cannot read properties of undefined (reading messageId)"

/-- The callback_query dispatcher (src/index.js lines 132-177).  Returns the
messages sent to the chat, and either the successor state or the runtime
error the handler raises.  The token of a malformed page callback (one the
program never generates) parses to NaN; that unreachable branch is modelled
as a no-op. -/
def handleCallback (cls : String → Bool) (outcome : Nat → Bool)
    (data : String) (fromUser : Nat) (st : CbState) :
    List String × Except String CbState :=
  if jsStartsWith data "prev_page_" || jsStartsWith data "next_page_" then
    match jsParseInt ((jsSplitOnChar '_' data).getD 2 "") with
    | some page =>
        let newPage : Int := if jsStartsWith data "prev_page_" then page - 1 else page + 1
        ([(listIpAddresses st.db newPage).text],
         Except.ok { st with listPage := some newPage })
    | none => ([], Except.ok st)
  else if data == "confirm_batch_add" && pendingOwnerIs st.pending fromUser then
    match st.pending with
    | some p =>
        let out := runBatch cls outcome fromUser p.addresses st.db 0
        ([batchSummary out.2.1 out.2.2],
         Except.ok { st with db := out.1, pending := none })
    | none => ([], Except.ok st)
  else if data == "cancel_batch_add" then
    match st.pending with
    | some _ =>
        (["Batch add cancelled."], Except.ok { st with pending := none })
    | none =>
        (["Batch add cancelled."], Except.error cancelCrashMessage)
  else
    ([], Except.ok st)

/-- The /list command (src/index.js lines 97-101): reset the cursor to page
zero and render that page. -/
def listCommand (st : CbState) : CbState × String :=
  ({ st with listPage := some 0 }, (listIpAddresses st.db 0).text)

/-- Specification-side companion of `runBatch`: the sublist of candidates
whose insert (by the outcome oracle, counting from `i`) succeeds. -/
def successList (outcome : Nat → Bool) : Nat → List String → List String
  | _, [] => []
  | i, a :: rest =>
      if outcome i then a :: successList outcome (i + 1) rest
      else successList outcome (i + 1) rest

/-- The row `addEntry` builds stores exactly the inserted value, whichever
column it lands in. -/
theorem storedValue_entry (n uid : Nat) (a : String) (c : Bool) :
    storedValue
      { id := n, user_id := uid,
        ip_address := if c then none else some a,
        cidr := if c then some a else none } = a := by
  cases c <;> simp [storedValue]

/-- Decomposition of `runBatch`: the rows after a batch are the old rows
followed by a tail whose owners and values are exactly the successful
candidates (in order). -/
theorem runBatch_rows (cls : String → Bool) (outcome : Nat → Bool) (uid : Nat) :
    ∀ (addrs : List String) (db : DB) (i : Nat),
      ∃ tail,
        (runBatch cls outcome uid addrs db i).1.rows = db.rows ++ tail ∧
        tail.map (fun r => (r.user_id, storedValue r)) =
          (successList outcome i addrs).map (fun a => (uid, a)) := by
  intro addrs
  induction addrs with
  | nil => intro db i; exact ⟨[], by simp [runBatch, successList]⟩
  | cons a rest ih =>
      intro db i
      cases h : outcome i with
      | true =>
          obtain ⟨tail, h1, h2⟩ := ih (addEntry uid a (cls a) db) (i + 1)
          refine ⟨{ id := db.nextId, user_id := uid,
                    ip_address := if cls a then none else some a,
                    cidr := if cls a then some a else none } :: tail, ?_, ?_⟩
          · simp only [addEntry] at h1
            simp [runBatch, h, h1, addEntry]
          · simp [successList, h, h2, storedValue_entry]
      | false =>
          obtain ⟨tail, h1, h2⟩ := ih db (i + 1)
          refine ⟨tail, ?_, ?_⟩
          · simp [runBatch, h, h1]
          · simp [successList, h, h2]

/-- The counters of `runBatch`: the success count is the number of
successful candidates, and together with the error count it exhausts the
candidate list. -/
theorem runBatch_counts (cls : String → Bool) (outcome : Nat → Bool) (uid : Nat) :
    ∀ (addrs : List String) (db : DB) (i : Nat),
      (runBatch cls outcome uid addrs db i).2.1 =
        (successList outcome i addrs).length ∧
      (runBatch cls outcome uid addrs db i).2.1 +
        (runBatch cls outcome uid addrs db i).2.2 = addrs.length := by
  intro addrs
  induction addrs with
  | nil => intro db i; simp [runBatch, successList]
  | cons a rest ih =>
      intro db i
      cases h : outcome i with
      | true =>
          obtain ⟨h1, h2⟩ := ih (addEntry uid a (cls a) db) (i + 1)
          constructor
          · simp [runBatch, h, successList, h1]
          · simp only [runBatch, h, if_true]
            simp only [List.length_cons]
            omega
      | false =>
          obtain ⟨h1, h2⟩ := ih db (i + 1)
          constructor
          · simp [runBatch, h, successList, h1]
          · simp only [runBatch, h, if_false, Bool.false_eq_true]
            simp only [List.length_cons]
            omega

/-- Every successful candidate is one of the candidates. -/
theorem successList_subset (outcome : Nat → Bool) :
    ∀ (i : Nat) (l : List String), successList outcome i l ⊆ l := by
  intro i l
  induction l generalizing i with
  | nil => simp [successList]
  | cons a rest ih =>
      cases h : outcome i with
      | true =>
          simp only [successList, h, if_true]
          exact List.cons_subset_cons a (ih (i + 1))
      | false =>
          simp only [successList, h, if_false, Bool.false_eq_true]
          exact (ih (i + 1)).trans (List.subset_cons_self a rest)

/-- The candidate values collected from a batch message are never the empty
string (the collection filters them out). -/
theorem mem_collectAddresses_ne (text a : String)
    (h : a ∈ collectAddresses text) : a ≠ "" := by
  have hb : (a != "") = true := (List.mem_filter.mp h).2
  exact bne_iff_ne.mp hb

/-- `find?` skips a leading segment on which the predicate is false. -/
theorem find?_append_of_all_false {α : Type} (p : α → Bool) :
    ∀ (l1 l2 : List α), (∀ x ∈ l1, p x = false) →
      List.find? p (l1 ++ l2) = List.find? p l2 := by
  intro l1
  induction l1 with
  | nil => intro l2 _; rfl
  | cons a l ih =>
      intro l2 h
      have ha : p a = false := h a (List.mem_cons_self a l)
      simp only [List.cons_append, List.find?]
      rw [ha]
      exact ih l2 fun x hx => h x (List.mem_cons_of_mem a hx)

/-- C1: the claim states that adding the identical trimmed value twice for
the same owner leaves exactly one stored record and makes the second call
report `already added`, whether the value classifies as a bare IP or as a
CIDR block.  The code violates this for CIDR-classified values: the
duplicate pre-check binds the `cidr` column to the empty string when the
input IS a CIDR (src/index.js line 57, `isCidr ? "" : input`), so the check
never sees the earlier record.  Evaluating the embedded /add handler on
`10.0.0.0/8` (a valid CIDR, so the classifier answers true on it) twice for
owner 1: the owner ends with TWO records carrying that value, and the
second call answers `CIDR 10.0.0.0/8 added successfully.` instead of the
`already added` response. -/
theorem C1_cidr_add_not_deduplicated :
    countOwnerValue
        (addHandler (fun s => s == "10.0.0.0/8")
          (addHandler (fun s => s == "10.0.0.0/8") DB.empty 1 "10.0.0.0/8").1
          1 "10.0.0.0/8").1 1 "10.0.0.0/8" = 2 ∧
    (addHandler (fun s => s == "10.0.0.0/8")
        (addHandler (fun s => s == "10.0.0.0/8") DB.empty 1 "10.0.0.0/8").1
        1 "10.0.0.0/8").2 = "CIDR 10.0.0.0/8 added successfully." :=
  ⟨by decide, by decide⟩

/-- C2 counterexample: the claimed per-owner uniqueness invariant fails.
A confirmed batch whose candidate list repeats a value inserts it twice for
the same owner — the batch insert loop (src/index.js lines 147-161) calls
`addEntry` with no duplicate check at all.  After confirming the batch
`["1.1.1.1", "1.1.1.1"]` (classifier false everywhere, every insert
succeeding) owner 1 stores the literal value `1.1.1.1` twice. -/
theorem C2_batch_duplicate_counterexample :
    ((runBatch (fun _ => false) (fun _ => true) 1 ["1.1.1.1", "1.1.1.1"]
        DB.empty 0).1.rows.map fun r => (r.user_id, storedValue r)) =
      [(1, "1.1.1.1"), (1, "1.1.1.1")] := by
  decide

/-- C2 amended: uniqueness is enforced only by the single-add handler's
pre-insert SELECT, and that check is effective only for inputs that do not
classify as CIDR: a single /add of a non-CIDR-classified value the owner
already stores (in either column) changes nothing and reports `already
added`.  The batch-confirm path and CIDR-classified adds perform no
effective duplicate check. -/
theorem C2_amended_single_add_dedup (cls : String → Bool) (db : DB)
    (uid : Nat) (raw : String)
    (hc : cls (jsTrim raw) = false)
    (he : existsQuery db uid (jsTrim raw) false = true) :
    addHandler cls db uid raw =
      (db, "Address " ++ jsTrim raw ++ " has already been added.") := by
  simp [addHandler, hc, he]

/-- Witness for the amended C2: owner 3 already stores `9.9.9.9`; adding it
again leaves the database unchanged and reports `already added`. -/
theorem C2_amended_witness :
    addHandler (fun _ => false)
        { rows := [{ id := 1, user_id := 3, ip_address := some "9.9.9.9",
                     cidr := none }], nextId := 2 }
        3 "9.9.9.9" =
      ({ rows := [{ id := 1, user_id := 3, ip_address := some "9.9.9.9",
                    cidr := none }], nextId := 2 },
        "Address 9.9.9.9 has already been added.") :=
  C2_amended_single_add_dedup (fun _ => false) _ 3 "9.9.9.9"
    (by decide) (by decide)

/-- C3 counterexample: the claim states an input that trims to the empty
string is invalid and never inserted, yet the /add handler has no emptiness
guard.  The command text `/add    ` matches the handler's pattern with an
all-whitespace argument; it trims to the empty string, the duplicate check
finds nothing, and a record with `ip_address = ""` is inserted. -/
theorem C3_empty_add_counterexample :
    (addHandler (fun _ => false) DB.empty 1 "   ").1.rows =
      [{ id := 1, user_id := 1, ip_address := some "", cidr := none }] := by
  decide

/-- C3 amended: every inbound add input is trimmed before any check — the
single-add handler stores only the trimmed value — and on the batch path
empty lines are dropped during collection, so no empty value ever reaches
the store through a batch; but a single-add argument that trims to the
empty string is not rejected and is inserted as a bare address. -/
theorem C3_trim_and_batch_guard :
    (∀ text a, a ∈ collectAddresses text → a ≠ "") ∧
    (∀ (cls : String → Bool) (outcome : Nat → Bool) (uid : Nat)
        (text : String) (db : DB) (r : Row),
        r ∈ (runBatch cls outcome uid (collectAddresses text) db 0).1.rows →
          r ∈ db.rows ∨ storedValue r ≠ "") ∧
    (∀ (cls : String → Bool) (db : DB) (uid : Nat) (raw : String) (r : Row),
        r ∈ (addHandler cls db uid raw).1.rows →
          r ∈ db.rows ∨ storedValue r = jsTrim raw) := by
  refine ⟨fun text a h => mem_collectAddresses_ne text a h, ?_, ?_⟩
  · intro cls outcome uid text db r hr
    obtain ⟨tail, h1, h2⟩ := runBatch_rows cls outcome uid (collectAddresses text) db 0
    rw [h1] at hr
    rcases List.mem_append.mp hr with h | h
    · exact Or.inl h
    · right
      have hmem : (r.user_id, storedValue r) ∈
          tail.map fun r => (r.user_id, storedValue r) :=
        List.mem_map_of_mem _ h
      rw [h2] at hmem
      obtain ⟨a, ha, hpair⟩ := List.mem_map.mp hmem
      have hval : storedValue r = a := (congrArg Prod.snd hpair).symm
      rw [hval]
      exact mem_collectAddresses_ne text a (successList_subset outcome 0 _ ha)
  · intro cls db uid raw r hr
    by_cases he : existsQuery db uid (jsTrim raw) (cls (jsTrim raw)) = true
    · left
      simpa [addHandler, he] using hr
    · have he' : existsQuery db uid (jsTrim raw) (cls (jsTrim raw)) = false :=
        Bool.eq_false_iff.mpr he
      simp only [addHandler, he', Bool.false_eq_true, if_false, addEntry] at hr
      rcases List.mem_append.mp hr with h | h
      · exact Or.inl h
      · right
        rw [List.mem_singleton.mp h]
        exact storedValue_entry db.nextId uid (jsTrim raw) (cls (jsTrim raw))

/-- Witness for the amended C3: the candidate `1.2.3.4` collected from the
batch message `x` newline `1.2.3.4` is not the empty string. -/
theorem C3_trim_and_batch_guard_witness : ("1.2.3.4" : String) ≠ "" :=
  C3_trim_and_batch_guard.1 "x\n1.2.3.4" "1.2.3.4" (by decide)

/-- C4: the claim states a cancel_batch_add callback with no pending batch
must be a harmless no-op.  The code's cancel branch (src/index.js lines
170-176) first sends the cancellation message and then unconditionally
reads `batchAddData[chatId].messageId`; with no pending batch that access
throws a TypeError.  Evaluating the embedded callback dispatcher on a
conversation with no pending batch: the cancellation message goes out and
the handler raises instead of completing. -/
theorem C4_cancel_without_pending_raises :
    handleCallback (fun _ => false) (fun _ => true) "cancel_batch_add" 7
        { db := DB.empty, pending := none, listPage := none } =
      (["Batch add cancelled."], Except.error cancelCrashMessage) :=
  rfl

/-- C5: confirming a pending batch of N candidates (initiator confirming
their own batch) attempts every insert independently — a failing insert
aborts nothing — and the single message sent is the summary, produced after
all attempts settle, whose success count `s` and error count `e` satisfy
`s + e = N`; the rows after the batch are exactly the old rows followed by
the successful candidates (owner and literal value), so every succeeding
value is actually stored. -/
theorem C5_batch_confirm_partial_failure (cls : String → Bool)
    (outcome : Nat → Bool) (db : DB) (p : PendingBatch) (lp : Option Int) :
    ∃ s e db2,
      handleCallback cls outcome "confirm_batch_add" p.userId
          { db := db, pending := some p, listPage := lp } =
        ([batchSummary s e], Except.ok { db := db2, pending := none, listPage := lp }) ∧
      s + e = p.addresses.length ∧
      s = (successList outcome 0 p.addresses).length ∧
      db2.rows.map (fun r => (r.user_id, storedValue r)) =
        db.rows.map (fun r => (r.user_id, storedValue r)) ++
          (successList outcome 0 p.addresses).map fun a => (p.userId, a) := by
  refine ⟨(runBatch cls outcome p.userId p.addresses db 0).2.1,
          (runBatch cls outcome p.userId p.addresses db 0).2.2,
          (runBatch cls outcome p.userId p.addresses db 0).1, ?_, ?_, ?_, ?_⟩
  · have h1 : (jsStartsWith "confirm_batch_add" "prev_page_" ||
        jsStartsWith "confirm_batch_add" "next_page_") = false := by decide
    simp [handleCallback, h1, pendingOwnerIs]
  · exact (runBatch_counts cls outcome p.userId p.addresses db 0).2
  · exact (runBatch_counts cls outcome p.userId p.addresses db 0).1
  · obtain ⟨tail, h1, h2⟩ := runBatch_rows cls outcome p.userId p.addresses db 0
    rw [h1, List.map_append, h2]

/-- C6: a confirm_batch_add callback from any user other than the batch
initiator is silently ignored — the whole state (pending batch, database,
cursor) is unchanged and no message is sent.  The owner guard sits in the
branch condition (src/index.js line 142), so a mismatch falls through past
the cancel branch into nothing. -/
theorem C6_confirm_other_user_ignored (cls : String → Bool)
    (outcome : Nat → Bool) (st : CbState) (p : PendingBatch) (u : Nat)
    (hp : st.pending = some p) (hu : u ≠ p.userId) :
    handleCallback cls outcome "confirm_batch_add" u st = ([], Except.ok st) := by
  have h1 : (jsStartsWith "confirm_batch_add" "prev_page_" ||
      jsStartsWith "confirm_batch_add" "next_page_") = false := by decide
  have h2 : pendingOwnerIs st.pending u = false := by
    rw [hp]
    simp only [pendingOwnerIs, beq_eq_false_iff_ne, ne_eq]
    exact fun h => hu h.symm
  have h3 : (("confirm_batch_add" : String) == "cancel_batch_add") = false := by
    decide
  simp [handleCallback, h1, h2, h3]

/-- Witness for C6: user 2 confirming user 1's pending batch changes
nothing and sends nothing. -/
theorem C6_confirm_other_user_ignored_witness :
    handleCallback (fun _ => false) (fun _ => true) "confirm_batch_add" 2
        { db := DB.empty,
          pending := some { userId := 1, addresses := ["a"], messageId := none },
          listPage := none } =
      ([], Except.ok
        { db := DB.empty,
          pending := some { userId := 1, addresses := ["a"], messageId := none },
          listPage := none }) :=
  C6_confirm_other_user_ignored (fun _ => false) (fun _ => true) _
    { userId := 1, addresses := ["a"], messageId := none } 2 rfl (by decide)

/-- C10: a cancel_batch_add callback on a conversation with a pending batch
clears the batch and sends the cancellation message for EVERY acting user —
the cancel branch (src/index.js lines 170-176) checks no user identity,
unlike the confirm branch's owner guard. -/
theorem C10_cancel_any_user (cls : String → Bool) (outcome : Nat → Bool)
    (db : DB) (p : PendingBatch) (lp : Option Int) (u : Nat) :
    handleCallback cls outcome "cancel_batch_add" u
        { db := db, pending := some p, listPage := lp } =
      (["Batch add cancelled."],
        Except.ok { db := db, pending := none, listPage := lp }) :=
  rfl

/-- Concrete 25-record database for the pagination scenario of C7. -/
def db25 : DB :=
  { rows := (List.range 25).map fun i =>
      { id := i + 1, user_id := 1,
        ip_address := some ("10.0.0." ++ toString i), cidr := none },
    nextId := 26 }

/-- The rendered keyboard holds a Previous button exactly when the page
index is positive. -/
theorem keyboard_prev_any (db : DB) (page : Int) :
    ((listIpAddresses db page).keyboard.any fun b => b.1 == "Previous") =
      decide (page > 0) := by
  simp only [listIpAddresses, List.any_append]
  by_cases hI : page > 0
  · simp [hI]
  · simp only [hI, if_false, List.any_nil, Bool.false_or, decide_eq_false hI]
    split
    · simp
    · simp

/-- The rendered keyboard holds a Next button exactly when the fetched page
is 10 records long. -/
theorem keyboard_next_any (db : DB) (page : Int) :
    ((listIpAddresses db page).keyboard.any fun b => b.1 == "Next") =
      ((listIpAddresses db page).rows.length == 10) := by
  simp only [listIpAddresses, List.any_append]
  generalize (db.rows.drop (page * ((10 : Nat) : Int)).toNat).take 10 = l
  by_cases h : (l.length == 10) = true
  · rw [if_pos h, h]
    simp only [List.any_cons, List.any_nil, Bool.or_false, Bool.or_true]
    simp
  · have h' : (l.length == 10) = false := Bool.eq_false_iff.mpr h
    rw [if_neg h, h']
    simp only [List.any_nil, Bool.or_false]
    split
    · simp
    · simp

/-- C7: rendering list page `page` fetches 10 records at offset `page * 10`,
attaches a Previous control iff `page > 0` and a Next control iff exactly
10 records came back, and renders `No entries found.` on an empty page; in
particular with 25 stored records page 0 shows 10 records with only a Next
control and page 2 shows 5 records with only a Previous control. -/
theorem C7_list_pagination (db : DB) (page : Nat) :
    (listIpAddresses db ((page : Nat) : Int)).rows =
      (db.rows.drop (page * 10)).take 10 ∧
    (((listIpAddresses db ((page : Nat) : Int)).keyboard.any
        fun b => b.1 == "Previous") = true ↔ 0 < page) ∧
    (((listIpAddresses db ((page : Nat) : Int)).keyboard.any
        fun b => b.1 == "Next") = true ↔
      (listIpAddresses db ((page : Nat) : Int)).rows.length = 10) ∧
    ((listIpAddresses db ((page : Nat) : Int)).rows = [] →
      (listIpAddresses db ((page : Nat) : Int)).text = "No entries found.") ∧
    (listIpAddresses db25 0).rows.length = 10 ∧
    (listIpAddresses db25 0).keyboard = [("Next", "next_page_0")] ∧
    (listIpAddresses db25 2).rows.length = 5 ∧
    (listIpAddresses db25 2).keyboard = [("Previous", "prev_page_2")] ∧
    (listIpAddresses db25 3).text = "No entries found." := by
  have hoff : (((page : Nat) : Int) * ((10 : Nat) : Int)).toNat = page * 10 := by
    omega
  refine ⟨?_, ?_, ?_, ?_, by decide, by decide, by decide, by decide, by decide⟩
  · simp only [listIpAddresses, hoff]
  · rw [keyboard_prev_any]
    simp only [decide_eq_true_eq]
    exact Int.natCast_pos
  · rw [keyboard_next_any]
    exact beq_iff_eq
  · intro h
    simp only [listIpAddresses] at h ⊢
    rw [h]
    simp [joinLines]

/-- Witness for C7: with the 25-record database, page 3 is empty and
renders the `No entries found.` text. -/
theorem C7_list_pagination_witness :
    (listIpAddresses db25 ((3 : Nat) : Int)).text = "No entries found." :=
  (C7_list_pagination db25 3).2.2.2.1 (by decide)

/-- C8: when the trimmed /check input does not classify as a CIDR, the scan
reports exactly the FIRST record (in scan order, which is insertion /
ascending-id order) whose `ip_address` equals the input or whose `cidr`
field is a valid CIDR containing the input, naming that record's cidr field
and owner — records after the first match never influence the response —
and when no record matches, the response says the input is not within any
stored CIDR. -/
theorem C8_check_first_match (cls : String → Bool)
    (ctns : String → String → Bool) (db : DB) (raw : String)
    (hni : cls (jsTrim raw) = false) :
    (∀ l1 r l2, db.rows = l1 ++ r :: l2 →
        (∀ q ∈ l1, bareMatch cls ctns (jsTrim raw) q = false) →
        bareMatch cls ctns (jsTrim raw) r = true →
        checkHandler cls ctns db raw =
          jsTrim raw ++ " is within CIDR " ++ showNullable r.cidr ++
            " from user " ++ toString r.user_id) ∧
    ((∀ q ∈ db.rows, bareMatch cls ctns (jsTrim raw) q = false) →
        checkHandler cls ctns db raw =
          jsTrim raw ++ " is not within any stored CIDR.") := by
  constructor
  · intro l1 r l2 hrows hl1 hr
    simp only [checkHandler, hni, Bool.false_eq_true, if_false]
    rw [hrows, find?_append_of_all_false _ l1 (r :: l2) hl1,
      List.find?_cons_of_pos _ hr]
  · intro hall
    simp only [checkHandler, hni, Bool.false_eq_true, if_false]
    rw [List.find?_eq_none.mpr fun x hx => by rw [hall x hx]; exact Bool.false_ne_true]

/-- Witness for C8: two stored CIDR records both contain `10.0.0.5`; the
response names the first (lowest-id) record's cidr and owner. -/
theorem C8_check_first_match_witness :
    checkHandler (fun s => s == "10.0.0.0/24" || s == "10.0.0.0/16")
        (fun c a => (c == "10.0.0.0/24" || c == "10.0.0.0/16") && a == "10.0.0.5")
        { rows :=
            [{ id := 1, user_id := 1, ip_address := none, cidr := some "10.0.0.0/24" },
             { id := 2, user_id := 2, ip_address := none, cidr := some "10.0.0.0/16" }],
          nextId := 3 }
        "10.0.0.5" = "10.0.0.5 is within CIDR 10.0.0.0/24 from user 1" :=
  (C8_check_first_match (fun s => s == "10.0.0.0/24" || s == "10.0.0.0/16")
      (fun c a => (c == "10.0.0.0/24" || c == "10.0.0.0/16") && a == "10.0.0.5")
      _ "10.0.0.5" (by decide)).1
    [] { id := 1, user_id := 1, ip_address := none, cidr := some "10.0.0.0/24" }
    [{ id := 2, user_id := 2, ip_address := none, cidr := some "10.0.0.0/16" }]
    rfl (by decide) (by decide)

/-- C9: /delete trims the input and removes exactly the acting owner's
records whose `ip_address` or `cidr` equals the trimmed value by exact
string match; the `deleted` response is emitted when at least one record
was removed, the `no entry found` response when none was (so deleting a
value never added reports `no entry found`), and removal count being
positive is equivalent to a matching record existing. -/
theorem C9_delete_exact (db : DB) (uid : Nat) (raw : String) :
    (∀ r, r ∈ (deleteHandler db uid raw).1.rows ↔
        r ∈ db.rows ∧ deleteMatch uid (jsTrim raw) r = false) ∧
    (0 < db.rows.countP (deleteMatch uid (jsTrim raw)) →
        (deleteHandler db uid raw).2 =
          "Entry " ++ jsTrim raw ++ " deleted successfully.") ∧
    (db.rows.countP (deleteMatch uid (jsTrim raw)) = 0 →
        (deleteHandler db uid raw).2 =
          "No entry found for " ++ jsTrim raw ++ ".") ∧
    (0 < db.rows.countP (deleteMatch uid (jsTrim raw)) ↔
        ∃ r ∈ db.rows, deleteMatch uid (jsTrim raw) r = true) := by
  refine ⟨?_, ?_, ?_, ?_⟩
  · intro r
    simp [deleteHandler, List.mem_filter]
  · intro h
    simp only [deleteHandler]
    rw [if_pos h]
  · intro h
    simp only [deleteHandler]
    rw [if_neg (by omega)]
  · constructor
    · intro h
      obtain ⟨r, hmem, hr⟩ := List.countP_pos_iff.mp h
      exact ⟨r, hmem, hr⟩
    · intro ⟨r, hmem, hr⟩
      exact List.countP_pos_iff.mpr ⟨r, hmem, hr⟩

/-- Witness for C9: deleting the single stored value succeeds; deleting
from an empty store reports `no entry found`. -/
theorem C9_delete_exact_witness :
    (deleteHandler
        { rows := [{ id := 1, user_id := 1, ip_address := some "8.8.8.8",
                     cidr := none }], nextId := 2 }
        1 "8.8.8.8").2 = "Entry 8.8.8.8 deleted successfully." ∧
    (deleteHandler DB.empty 1 "8.8.8.8").2 = "No entry found for 8.8.8.8." :=
  ⟨(C9_delete_exact
      { rows := [{ id := 1, user_id := 1, ip_address := some "8.8.8.8",
                   cidr := none }], nextId := 2 }
      1 "8.8.8.8").2.1 (by decide),
   (C9_delete_exact DB.empty 1 "8.8.8.8").2.2.1 (by decide)⟩

end TiMian
